import Mathlib

/-!
Verification development for the txtai API gateway
(src/python/txtai/api/base.py).

The gateway (class API) routes search/mutation requests either to a
configured cluster, or to a local embeddings index, buffering documents
for indexing under a mutation lock.  External collaborators (Embeddings,
Cluster, pipelines, workflows) are modelled as bundles of response data;
every call into a collaborator is recorded in an explicit log
(clusterLog for cluster methods, localLog for local embeddings methods)
so that statements such as "the local index is never touched" are
expressible.
-/

/-- Document identifiers: Python ids are either ints (the auto-assigned
sequence uses ints) or strings. -/
inductive DocId
  | num (n : Nat)
  | str (s : String)
  deriving DecidableEq

/-- Upstream score values before the float(...) coercion applied by the
gateway: a Python int or float.  Floats are modelled as rationals. -/
inductive SVal
  | int (n : Int)
  | float (q : ℚ)
  deriving DecidableEq

/-- The float(...) coercion applied to scores. -/
def SVal.toFloat : SVal → ℚ
  | .int n => (n : ℚ)
  | .float q => q

/-- Opaque payload of an already-structured result record. -/
abbrev RecData := List (String × String)

/-- One upstream search result: a positional (id, score) tuple or an
already-structured record. -/
inductive SearchItem
  | tup (id : DocId) (score : SVal)
  | dict (r : RecData)
  deriving DecidableEq

/-- One gateway output result: a normalized record with id and score
fields, or a passed-through structured record. -/
inductive OutItem
  | idScore (id : DocId) (score : ℚ)
  | dict (r : RecData)
  deriving DecidableEq

/-- Content slot of a document triple: raw text, or the whole structured
record (the dict case of API.add passes the dict through as content). -/
inductive Content
  | text (s : String)
  | record (id : DocId) (text : String)
  deriving DecidableEq

/-- Normalized document triple (id, content, object).  API.transform
builds a triple with id None, hence the Option on the id. -/
structure NDoc where
  id : Option DocId
  content : Content
  obj : Option String
  deriving DecidableEq

/-- Input document shapes accepted by API.add: a dict with an id and a
text field, a bare string, a tuple of length 2, a tuple of length 3. -/
inductive PyDoc
  | dict (id : DocId) (text : String)
  | text (s : String)
  | pair (id : DocId) (content : Content)
  | triple (id : DocId) (content : Content) (obj : Option String)
  deriving DecidableEq

/-- Loop body of API.add for one document, given the current value of
the auto-id counter (variable index in the source). -/
def normalizeDocAt (idx : Nat) : PyDoc → NDoc
  | .dict id t => ⟨some id, .record id t, none⟩
  | .text s => ⟨some (.num idx), .text s, none⟩
  | .pair id c => ⟨some id, c, none⟩
  | .triple id c o => ⟨some id, c, o⟩

/-- The batch-building loop of API.add: the counter starts at idx and is
incremented only when a bare-string document receives an auto id. -/
def buildBatch : Nat → List PyDoc → List NDoc
  | _, [] => []
  | idx, .dict id t :: rest => ⟨some id, .record id t, none⟩ :: buildBatch idx rest
  | idx, .text s :: rest => ⟨some (.num idx), .text s, none⟩ :: buildBatch (idx + 1) rest
  | idx, .pair id c :: rest => ⟨some id, c, none⟩ :: buildBatch idx rest
  | idx, .triple id c o :: rest => ⟨some id, c, o⟩ :: buildBatch idx rest

/-- Number of bare-string documents in a batch (each consumes one auto
id). -/
def autoCount : List PyDoc → Nat
  | [] => 0
  | .text _ :: rest => autoCount rest + 1
  | _ :: rest => autoCount rest

/-- A dynamically typed action value as stored in a task dictionary:
either a string (unresolved name) or a callable.  The callables are the
gateway's own bound methods, a registered pipeline instance, or an
anonymously constructed pipeline. -/
inductive AVal
  | str (name : String)
  | addMethod
  | indexMethod
  | upsertMethod
  | pipe (name : String)
  | anonymous (arg : AVal)
  deriving DecidableEq

/-- True exactly for string values (isinstance(x, str)). -/
def AVal.isStr : AVal → Bool
  | .str _ => true
  | _ => false

/-- Modelled from the spec: PipelineFactory.create({}, x).  The factory
itself is not under src; per the spec it falls back to "constructing a
pipeline instance anonymously by that name", modelled as wrapping its
argument in a fresh anonymous pipeline instance. -/
def pipelineFactoryCreate (arg : AVal) : AVal :=
  .anonymous arg

/-- A workflow task descriptor: the action entry (absent, a single
value, or a list of values), the unpack flag, and the initialize and
finalize entries (fields named initializer and finalizer here). -/
structure WTask where
  action : Option (AVal ⊕ List AVal)
  unpack : Option Bool
  initializer : Option AVal
  finalizer : Option AVal
  deriving DecidableEq

/-- A workflow element: a string, a list (converted to a tuple by
API.workflow), or a tuple. -/
inductive Element
  | strv (s : String)
  | list (l : List String)
  | tup (l : List String)
  deriving DecidableEq

/-- Response data of the similarity pipeline entry of self.pipelines
(presence of the "similarity" key plus its call behavior). -/
structure SimPipe where
  simRes : String → List String → List (DocId × SVal)
  batchsimRes : List String → List String → List (List (DocId × SVal))

/-- Response data of the local Embeddings instance (an external
collaborator: only its observable answers are modelled). -/
structure EmbData where
  countRes : Nat
  searchRes : String → Int → List SearchItem
  batchsearchRes : List String → Int → List (List SearchItem)
  similarityRes : String → List String → List (DocId × SVal)
  batchsimilarityRes : List String → List String → List (List (DocId × SVal))
  transformRes : NDoc → List SVal
  batchtransformRes : List NDoc → List (List SVal)
  deleteRes : List DocId → List DocId
  scoring : Bool
  saveFails : Bool

/-- Response data of the Cluster instance (an external collaborator).
Cluster search results are returned by the gateway as-is. -/
structure ClusterData where
  countRes : Nat
  searchRes : String → Int → List OutItem
  batchsearchRes : List String → Int → List (List OutItem)
  deleteRes : List DocId → Option (List DocId)

/-- Gateway state: configuration, collaborators, the document buffer,
registries, the call logs and the mutation lock.  The pipelines dict of
the source is split into the similarity entry (simPipeline, with its
response behavior) and the generic name registry (pipelines). -/
structure GState where
  cluster : Option ClusterData
  embeddings : Option EmbData
  writable : Bool
  path : Option String
  documents : Option (List NDoc)
  simPipeline : Option SimPipe
  pipelines : List (String × AVal)
  workflows : List (String × (List Element → List Element))
  clusterLog : List String
  localLog : List String
  lock : Bool

/-- Record a call into the cluster. -/
def logC (s : GState) (op : String) : GState :=
  { s with clusterLog := s.clusterLog ++ [op] }

/-- Record a call into the local embeddings index. -/
def logL (s : GState) (op : String) : GState :=
  { s with localLog := s.localLog ++ [op] }

namespace API

/-- API.limit: max(1, min(250, int(limit) if limit else 10)).  The
argument is absent (None) or an int; 0 is falsy. -/
def limit (l : Option Int) : Int :=
  max 1 (min 250 (match l with
    | some n => if n = 0 then 10 else n
    | none => 10))

/-- API.count: cluster count, else local count, else None. -/
def count (s : GState) : GState × Option Nat :=
  match s.cluster with
  | some c => (logC s "count", some c.countRes)
  | none =>
    match s.embeddings with
    | some e => (logL s "count", some e.countRes)
    | none => (s, none)

/-- Comprehension body of API.search and API.batchsearch: unpack an
(id, score) tuple into an id/score record coercing the score to float,
pass structured records through. -/
def normalizeResult : SearchItem → OutItem
  | .tup id score => .idScore id score.toFloat
  | .dict r => .dict r

/-- API.search.  The request argument models the optional FastAPI
request carrying an optional limit query parameter. -/
def search (s : GState) (query : String) (request : Option (Option Int)) :
    GState × Option (List OutItem) :=
  let lim := limit (match request with | some ps => ps | none => none)
  match s.cluster with
  | some c => (logC s "search", some (c.searchRes query lim))
  | none =>
    match s.embeddings with
    | some e => (logL s "search", some ((e.searchRes query lim).map normalizeResult))
    | none => (s, none)

/-- API.batchsearch. -/
def batchsearch (s : GState) (queries : List String) (l : Option Int) :
    GState × Option (List (List OutItem)) :=
  match s.cluster with
  | some c => (logC s "batchsearch", some (c.batchsearchRes queries (limit l)))
  | none =>
    match s.embeddings with
    | some e =>
      (logL s "batchsearch",
        some ((e.batchsearchRes queries (limit l)).map (List.map normalizeResult)))
    | none => (s, none)

/-- API.add: delegate to the cluster if present; else, if a local index
is present and the config is writable, normalize the batch into the
buffer under the lock (creating the buffer if absent, with the auto-id
counter starting at self.count() + len(self.documents)); the input
documents are returned unmodified in every case. -/
def add (s : GState) (documents : List PyDoc) : GState × List PyDoc :=
  match s.cluster with
  | some _ => (logC s "add", documents)
  | none =>
    if s.embeddings.isSome && s.writable then
      let s1 := { s with lock := true }
      let docs := s1.documents.getD []
      let p := count s1
      let start := p.2.getD 0 + docs.length
      let s3 := { p.1 with documents := some (docs ++ buildBatch start documents) }
      ({ s3 with lock := false }, documents)
    else
      (s, documents)

/-- API.index: delegate to the cluster if present; else, if a local
index is present, the config is writable and a buffer exists, then
under the lock build a scoring index if required, build the embeddings
index, save to the configured path if one exists (a failing save
propagates as an error after the with-block releases the lock), and
reset the buffer. -/
def index (s : GState) : GState × Except String Unit :=
  match s.cluster with
  | some _ => (logC s "index", .ok ())
  | none =>
    match s.embeddings with
    | some e =>
      if s.writable && s.documents.isSome then
        let s1 := { s with lock := true }
        let s2 := if e.scoring then logL s1 "score" else s1
        let s3 := logL s2 "index"
        match s.path with
        | some _ =>
          if e.saveFails then
            ({ s3 with lock := false }, .error "save failed")
          else
            let s4 := logL s3 "save"
            ({ s4 with documents := none, lock := false }, .ok ())
        | none =>
          ({ s3 with documents := none, lock := false }, .ok ())
      else
        (s, .ok ())
    | none => (s, .ok ())

/-- API.upsert: like API.index without the scoring pre-pass. -/
def upsert (s : GState) : GState × Except String Unit :=
  match s.cluster with
  | some _ => (logC s "upsert", .ok ())
  | none =>
    match s.embeddings with
    | some e =>
      if s.writable && s.documents.isSome then
        let s1 := { s with lock := true }
        let s3 := logL s1 "upsert"
        match s.path with
        | some _ =>
          if e.saveFails then
            ({ s3 with lock := false }, .error "save failed")
          else
            let s4 := logL s3 "save"
            ({ s4 with documents := none, lock := false }, .ok ())
        | none =>
          ({ s3 with documents := none, lock := false }, .ok ())
      else
        (s, .ok ())
    | none => (s, .ok ())

/-- API.delete: cluster delete if present; else local delete under the
lock when writable; else None. -/
def delete (s : GState) (ids : List DocId) : GState × Option (List DocId) :=
  match s.cluster with
  | some c => (logC s "delete", c.deleteRes ids)
  | none =>
    match s.embeddings with
    | some e =>
      if s.writable then
        let s1 := { s with lock := true }
        let s2 := logL s1 "delete"
        ({ s2 with lock := false }, some (e.deleteRes ids))
      else
        (s, none)
    | none => (s, none)

/-- API.similarity: the similarity pipeline if registered, else the
local embeddings index; the cluster is never consulted. -/
def similarity (s : GState) (query : String) (texts : List String) :
    GState × Option (List OutItem) :=
  match s.simPipeline with
  | some sim =>
    (s, some ((sim.simRes query texts).map fun p => .idScore p.1 p.2.toFloat))
  | none =>
    match s.embeddings with
    | some e =>
      (logL s "similarity",
        some ((e.similarityRes query texts).map fun p => .idScore p.1 p.2.toFloat))
    | none => (s, none)

/-- API.batchsimilarity. -/
def batchsimilarity (s : GState) (queries : List String) (texts : List String) :
    GState × Option (List (List OutItem)) :=
  match s.simPipeline with
  | some sim =>
    (s, some ((sim.batchsimRes queries texts).map fun r =>
      r.map fun p => .idScore p.1 p.2.toFloat))
  | none =>
    match s.embeddings with
    | some e =>
      (logL s "batchsimilarity",
        some ((e.batchsimilarityRes queries texts).map fun r =>
          r.map fun p => .idScore p.1 p.2.toFloat))
    | none => (s, none)

/-- API.transform: local embeddings only (the cluster is never
consulted); the document triple passed down has id None. -/
def transform (s : GState) (text : String) : GState × Option (List ℚ) :=
  match s.embeddings with
  | some e =>
    (logL s "transform", some ((e.transformRes ⟨none, .text text, none⟩).map SVal.toFloat))
  | none => (s, none)

/-- API.batchtransform. -/
def batchtransform (s : GState) (texts : List String) :
    GState × Option (List (List ℚ)) :=
  match s.embeddings with
  | some e =>
    (logL s "batchtransform",
      some ((e.batchtransformRes (texts.map fun t => ⟨none, .text t, none⟩)).map
        fun r => r.map SVal.toFloat))
  | none => (s, none)

/-- API.function: look the name up in self.pipelines (a non-string
value is never a dict key, so it misses), else fall back to
PipelineFactory.create({}, function). -/
def function (pipelines : List (String × AVal)) (f : AVal) : AVal :=
  match f with
  | .str n =>
    match pipelines.lookup n with
    | some p => p
    | none => pipelineFactoryCreate (.str n)
  | other => pipelineFactoryCreate other

/-- Loop over the action values of API.resolve: the names index and
upsert substitute the gateway's add method, force unpack to False and
set the finalize entry to the upsert or index method; every other value
goes through API.function. -/
def resolveLoop (pipelines : List (String × AVal)) :
    List AVal → WTask → List AVal × WTask
  | [], task => ([], task)
  | a :: rest, task =>
    if a = .str "index" ∨ a = .str "upsert" then
      let task := { task with
        unpack := some false,
        finalizer := some (if a = .str "upsert" then AVal.upsertMethod else AVal.indexMethod) }
      let p := resolveLoop pipelines rest task
      (AVal.addMethod :: p.1, p.2)
    else
      let p := resolveLoop pipelines rest task
      (function pipelines a :: p.1, p.2)

/-- API.resolve: resolve the action entry (preserving its single-vs-list
shape), then resolve the initialize and finalize entries when they are
string-valued. -/
def resolve (pipelines : List (String × AVal)) (task : WTask) : WTask :=
  let task :=
    match task.action with
    | none => task
    | some (Sum.inl a) =>
      let p := resolveLoop pipelines [a] task
      { p.2 with action := some (Sum.inl (p.1.headD (AVal.str ""))) }
    | some (Sum.inr l) =>
      let p := resolveLoop pipelines l task
      { p.2 with action := some (Sum.inr p.1) }
  let task :=
    match task.initializer with
    | some (AVal.str n) =>
      { task with initializer := some (function pipelines (.str n)) }
    | _ => task
  match task.finalizer with
  | some (AVal.str n) =>
    { task with finalizer := some (function pipelines (.str n)) }
  | _ => task

/-- API.pipeline: invoke the named registered pipeline on the given
arguments (the invocation is represented by the pair of the resolved
pipeline and its arguments), returning None when unregistered. -/
def pipelineOp (s : GState) (name : String) (args : List String) :
    Option (AVal × List String) :=
  match s.pipelines.lookup name with
  | some p => some (p, args)
  | none => none

/-- API.workflow: convert list elements to tuples, then invoke
self.workflows[name], which raises a KeyError for an unregistered
name. -/
def workflowOp (s : GState) (name : String) (elements : List Element) :
    Except String (List Element) :=
  let elements := elements.map fun e =>
    match e with
    | .list l => Element.tup l
    | e => e
  match s.workflows.lookup name with
  | some wf => .ok (wf elements)
  | none => .error "KeyError"

end API

/-!
Concurrency model for API.add: the body of add is split at the
statement boundaries of the source into lock-guarded atomic steps, so
that the interleavings of two threads each performing one add call can
be reasoned about.  The steps of one thread are: acquire the lock,
check-and-create the buffer, compute the auto-id base and append the
normalized batch, release the lock.
-/

/-- Program counter of one thread performing API.add. -/
inductive ThreadPC
  | start
  | owned
  | created
  | appended
  | done
  deriving DecidableEq

/-- Shared state for two concurrent API.add calls: the mutation lock
(holding thread, if any), the document buffer, the fixed local index
count (no flush runs concurrently), and each thread's position. -/
structure CncState where
  lock : Option (Fin 2)
  documents : Option (List NDoc)
  count : Nat
  pc0 : ThreadPC
  pc1 : ThreadPC

/-- Buffer contents after the check-and-create statement
(if not self.documents: self.documents = Documents()). -/
def doCreate (s : CncState) : Option (List NDoc) :=
  some (s.documents.getD [])

/-- Buffer contents after computing the auto-id base
(self.count() + len(self.documents)) and appending the normalized
batch. -/
def doAppend (s : CncState) (batch : List PyDoc) : Option (List NDoc) :=
  some ((s.documents.getD []) ++
    buildBatch (s.count + (s.documents.getD []).length) batch)

/-- Interleaved small-step semantics of two threads each executing the
locked body of API.add on its own batch (b0 and b1): acquire the lock,
check-and-create the buffer, append the normalized batch, release. -/
inductive AddStep (b0 b1 : List PyDoc) : CncState → CncState → Prop
  | acquire0 (s : CncState) : s.pc0 = .start → s.lock = none →
      AddStep b0 b1 s { s with lock := some 0, pc0 := .owned }
  | create0 (s : CncState) : s.pc0 = .owned → s.lock = some 0 →
      AddStep b0 b1 s { s with documents := doCreate s, pc0 := .created }
  | append0 (s : CncState) : s.pc0 = .created → s.lock = some 0 →
      AddStep b0 b1 s { s with documents := doAppend s b0, pc0 := .appended }
  | release0 (s : CncState) : s.pc0 = .appended → s.lock = some 0 →
      AddStep b0 b1 s { s with lock := none, pc0 := .done }
  | acquire1 (s : CncState) : s.pc1 = .start → s.lock = none →
      AddStep b0 b1 s { s with lock := some 1, pc1 := .owned }
  | create1 (s : CncState) : s.pc1 = .owned → s.lock = some 1 →
      AddStep b0 b1 s { s with documents := doCreate s, pc1 := .created }
  | append1 (s : CncState) : s.pc1 = .created → s.lock = some 1 →
      AddStep b0 b1 s { s with documents := doAppend s b1, pc1 := .appended }
  | release1 (s : CncState) : s.pc1 = .appended → s.lock = some 1 →
      AddStep b0 b1 s { s with lock := none, pc1 := .done }

/-- Initial state of the two-thread add scenario: lock free, no buffer,
both threads about to call add. -/
def initCnc (count : Nat) : CncState :=
  { lock := none, documents := none, count := count, pc0 := .start, pc1 := .start }

/-- Gateway state with empty registries and logs, lock free. -/
def mkGState (cluster : Option ClusterData) (embeddings : Option EmbData)
    (writable : Bool) (path : Option String) (documents : Option (List NDoc))
    (simPipeline : Option SimPipe) : GState :=
  { cluster := cluster, embeddings := embeddings, writable := writable,
    path := path, documents := documents, simPipeline := simPipeline,
    pipelines := [], workflows := [], clusterLog := [], localLog := [],
    lock := false }

/-- A concrete local index collaborator with a given count and trivial
responses. -/
def dummyEmb (cnt : Nat) : EmbData :=
  { countRes := cnt, searchRes := fun _ _ => [], batchsearchRes := fun _ _ => [],
    similarityRes := fun _ _ => [], batchsimilarityRes := fun _ _ => [],
    transformRes := fun _ => [], batchtransformRes := fun _ => [],
    deleteRes := fun ids => ids, scoring := false, saveFails := false }

/-- A concrete cluster collaborator with trivial responses; delete
echoes the requested ids. -/
def dummyCluster : ClusterData :=
  { countRes := 0, searchRes := fun _ _ => [], batchsearchRes := fun _ _ => [],
    deleteRes := fun ids => some ids }

/-- Claim C5: limit always returns an integer in the inclusive range
1 to 250; it returns 10 when the argument is absent or falsy, the
argument itself when already in range, 250 above the range and 1 below
it. -/
theorem claim_C5_limit (x : Option Int) (n m k : Int)
    (hn1 : 1 ≤ n) (hn2 : n ≤ 250) (hm : 250 < m) (hk : k < 1) (hk0 : k ≠ 0) :
    API.limit none = 10 ∧ API.limit (some 0) = 10 ∧
    API.limit (some n) = n ∧ API.limit (some m) = 250 ∧ API.limit (some k) = 1 ∧
    1 ≤ API.limit x ∧ API.limit x ≤ 250 := by
  refine ⟨by decide, by decide, ?_, ?_, ?_, ?_, ?_⟩
  · simp only [API.limit]
    rw [if_neg (by omega : ¬ n = 0)]
    omega
  · simp only [API.limit]
    rw [if_neg (by omega : ¬ m = 0)]
    omega
  · simp only [API.limit]
    rw [if_neg hk0]
    omega
  · cases x with
    | none => decide
    | some t => simp only [API.limit]; split <;> omega
  · cases x with
    | none => decide
    | some t => simp only [API.limit]; split <;> omega

/-- Claim C5 witness: the clamp evaluated at None, 0, the in-range
value 5, the above-range value 1000, the below-range value -3 and the
in-range probe 7. -/
theorem claim_C5_witness :
    API.limit none = 10 ∧ API.limit (some 0) = 10 ∧
    API.limit (some 5) = 5 ∧ API.limit (some 1000) = 250 ∧ API.limit (some (-3)) = 1 ∧
    1 ≤ API.limit (some 7) ∧ API.limit (some 7) ≤ 250 :=
  claim_C5_limit (some 7) 5 1000 (-3) (by decide) (by decide) (by decide) (by decide)
    (by decide)

/-- Claim C7: search and batchsearch normalize every positional
(id, score) pair into an id/score record with the score coerced to a
floating value, pass already-structured records through and preserve
the order of the upstream result; on results (1, 0.9), (2, 0.5) the
output is the records with ids 1, 2 and scores 0.9, 0.5 in order. -/
theorem claim_C7_result_normalization (e : EmbData) (q : String) (l : Int)
    (qs : List String) (lo : Option Int) (i : Nat) (recs : List RecData) :
    ((API.search (mkGState none (some e) true none none none) q (some lo)).2
      = some ((e.searchRes q (API.limit lo)).map API.normalizeResult)) ∧
    ((API.batchsearch (mkGState none (some e) true none none none) qs lo).2
      = some ((e.batchsearchRes qs (API.limit lo)).map (List.map API.normalizeResult))) ∧
    (((e.searchRes q l).map API.normalizeResult)[i]?
      = ((e.searchRes q l)[i]?).map API.normalizeResult) ∧
    (([SearchItem.tup (.num 1) (.float (9/10)), SearchItem.tup (.num 2) (.float (1/2))].map
        API.normalizeResult)
      = [OutItem.idScore (.num 1) (9/10), OutItem.idScore (.num 2) (1/2)]) ∧
    ((recs.map SearchItem.dict).map API.normalizeResult = recs.map OutItem.dict) := by
  refine ⟨rfl, rfl, ?_, by simp [API.normalizeResult, SVal.toFloat], ?_⟩
  · simp [List.getElem?_map]
  · simp [List.map_map, Function.comp, API.normalizeResult]

/-- Claim C10: invoking a workflow by an unregistered name raises a
lookup error, while invoking a pipeline by an unregistered name
returns the absent result. -/
theorem claim_C10_workflow_vs_pipeline (s : GState) (name : String)
    (elems : List Element) (args : List String)
    (hw : s.workflows.lookup name = none)
    (hp : s.pipelines.lookup name = none) :
    API.workflowOp s name elems = .error "KeyError" ∧
    API.pipelineOp s name args = none := by
  constructor
  · simp [API.workflowOp, hw]
  · simp [API.pipelineOp, hp]

/-- Claim C10 witness at a gateway with empty registries and the name
missing. -/
theorem claim_C10_witness :
    API.workflowOp (mkGState none none false none none none) "missing" [] = .error "KeyError" ∧
    API.pipelineOp (mkGState none none false none none none) "missing" [] = none :=
  claim_C10_workflow_vs_pipeline (mkGState none none false none none none)
    "missing" [] [] rfl rfl

/-- Claim C3 counterexample: on a non-writable gateway with a cluster
configured, mutating calls are not no-ops: delete returns the cluster's
answer instead of the no-result sentinel, and add calls into the
cluster. -/
theorem claim_C3_counterexample :
    (API.delete (mkGState (some dummyCluster) none false none none none)
        [DocId.num 3]).2 = some [DocId.num 3] ∧
    (API.add (mkGState (some dummyCluster) none false none none none)
        [PyDoc.text "x"]).1.clusterLog = ["add"] :=
  ⟨rfl, rfl⟩

/-- Claim C3 (amended): on a gateway with no cluster configured whose
configuration is not marked writable, every mutating call is a silent
no-op that never raises: add returns its input and leaves the state
unchanged, index and upsert do nothing, delete returns the no-result
sentinel.  (With a cluster configured, mutating calls are delegated to
the cluster regardless of the writable flag.) -/
theorem claim_C3_amended (e : Option EmbData) (p : Option String)
    (d : Option (List NDoc)) (ds : List PyDoc) (ids : List DocId) :
    (API.add (mkGState none e false p d none) ds = (mkGState none e false p d none, ds)) ∧
    (API.index (mkGState none e false p d none) = (mkGState none e false p d none, .ok ())) ∧
    (API.upsert (mkGState none e false p d none) = (mkGState none e false p d none, .ok ())) ∧
    (API.delete (mkGState none e false p d none) ids = (mkGState none e false p d none, none)) := by
  rcases e with _ | e
  · exact ⟨rfl, rfl, rfl, rfl⟩
  · exact ⟨rfl, rfl, rfl, rfl⟩

/-- Claim C2: when the save step inside index() or upsert() raises, the
exception propagates to the caller, the mutation lock is released and
the document buffer is left intact; when the save step completes, the
buffer is reset to absent. -/
theorem claim_C2_save_failure (e : EmbData) (buf : List NDoc) (p : String) :
    ((API.index (mkGState none (some { e with saveFails := true }) true (some p) (some buf) none)).2
        = .error "save failed" ∧
     (API.index (mkGState none (some { e with saveFails := true }) true (some p) (some buf) none)).1.documents
        = some buf ∧
     (API.index (mkGState none (some { e with saveFails := true }) true (some p) (some buf) none)).1.lock
        = false) ∧
    ((API.index (mkGState none (some { e with saveFails := false }) true (some p) (some buf) none)).2
        = .ok () ∧
     (API.index (mkGState none (some { e with saveFails := false }) true (some p) (some buf) none)).1.documents
        = none ∧
     (API.index (mkGState none (some { e with saveFails := false }) true (some p) (some buf) none)).1.lock
        = false) ∧
    ((API.upsert (mkGState none (some { e with saveFails := true }) true (some p) (some buf) none)).2
        = .error "save failed" ∧
     (API.upsert (mkGState none (some { e with saveFails := true }) true (some p) (some buf) none)).1.documents
        = some buf ∧
     (API.upsert (mkGState none (some { e with saveFails := true }) true (some p) (some buf) none)).1.lock
        = false) ∧
    ((API.upsert (mkGState none (some { e with saveFails := false }) true (some p) (some buf) none)).2
        = .ok () ∧
     (API.upsert (mkGState none (some { e with saveFails := false }) true (some p) (some buf) none)).1.documents
        = none ∧
     (API.upsert (mkGState none (some { e with saveFails := false }) true (some p) (some buf) none)).1.lock
        = false) := by
  obtain ⟨cnt, sr, bsr, sir, bsir, tr, btr, dr, sc, sv⟩ := e
  cases sc <;>
    exact ⟨⟨rfl, rfl, rfl⟩, ⟨rfl, rfl, rfl⟩, ⟨rfl, rfl, rfl⟩, ⟨rfl, rfl, rfl⟩⟩

/-- Claim C1 counterexample: with a cluster configured (and a local
index also present), transform and similarity still call into the
local embeddings index and never delegate to the cluster; and with
neither cluster nor local index configured, add returns its input
rather than an absent result. -/
theorem claim_C1_counterexample :
    (mkGState (some dummyCluster) (some (dummyEmb 0)) true none none none).cluster.isSome = true ∧
    (API.transform (mkGState (some dummyCluster) (some (dummyEmb 0)) true none none none)
        "x").1.localLog = ["transform"] ∧
    (API.transform (mkGState (some dummyCluster) (some (dummyEmb 0)) true none none none)
        "x").1.clusterLog = [] ∧
    (API.similarity (mkGState (some dummyCluster) (some (dummyEmb 0)) true none none none)
        "q" ["t"]).1.localLog = ["similarity"] ∧
    (API.add (mkGState none none true none none none) [PyDoc.text "x"]).2 = [PyDoc.text "x"] :=
  ⟨rfl, rfl, rfl, rfl, rfl⟩

/-- Claim C1 (amended): the three-way dispatch (cluster exclusively,
else local index, else absent result) holds for search, batchsearch,
add, index, upsert, delete and count, except that add returns its
input rather than an absent result in every branch and requires the
writable flag for the local branch; similarity, batchsimilarity,
transform and batchtransform never consult the cluster (similarity
dispatches on the similarity pipeline, then the local index; transform
uses the local index only). -/
theorem claim_C1_amended (c : ClusterData) (e : EmbData) (buf : List NDoc)
    (sim : SimPipe) (q : String) (qs : List String) (lo : Option Int)
    (ids : List DocId) (ds : List PyDoc) (ts : List String) :
    (API.search (mkGState (some c) (some e) true (some "p") (some buf) (some sim)) q (some lo)
      = (logC (mkGState (some c) (some e) true (some "p") (some buf) (some sim)) "search",
         some (c.searchRes q (API.limit lo)))) ∧
    (API.batchsearch (mkGState (some c) (some e) true (some "p") (some buf) (some sim)) qs lo
      = (logC (mkGState (some c) (some e) true (some "p") (some buf) (some sim)) "batchsearch",
         some (c.batchsearchRes qs (API.limit lo)))) ∧
    (API.add (mkGState (some c) (some e) true (some "p") (some buf) (some sim)) ds
      = (logC (mkGState (some c) (some e) true (some "p") (some buf) (some sim)) "add", ds)) ∧
    (API.index (mkGState (some c) (some e) true (some "p") (some buf) (some sim))
      = (logC (mkGState (some c) (some e) true (some "p") (some buf) (some sim)) "index", .ok ())) ∧
    (API.upsert (mkGState (some c) (some e) true (some "p") (some buf) (some sim))
      = (logC (mkGState (some c) (some e) true (some "p") (some buf) (some sim)) "upsert", .ok ())) ∧
    (API.delete (mkGState (some c) (some e) true (some "p") (some buf) (some sim)) ids
      = (logC (mkGState (some c) (some e) true (some "p") (some buf) (some sim)) "delete",
         c.deleteRes ids)) ∧
    (API.count (mkGState (some c) (some e) true (some "p") (some buf) (some sim))
      = (logC (mkGState (some c) (some e) true (some "p") (some buf) (some sim)) "count",
         some c.countRes)) ∧
    ((API.search (mkGState none (some e) true none (some buf) none) q (some lo)).2
      = some ((e.searchRes q (API.limit lo)).map API.normalizeResult)) ∧
    ((API.search (mkGState none (some e) true none (some buf) none) q (some lo)).1.clusterLog = []) ∧
    ((API.batchsearch (mkGState none (some e) true none (some buf) none) qs lo).2
      = some ((e.batchsearchRes qs (API.limit lo)).map (List.map API.normalizeResult))) ∧
    ((API.count (mkGState none (some e) true none (some buf) none)).2 = some e.countRes) ∧
    ((API.delete (mkGState none (some e) true none (some buf) none) ids).2
      = some (e.deleteRes ids)) ∧
    ((API.delete (mkGState none (some e) true none (some buf) none) ids).1.clusterLog = []) ∧
    ((API.add (mkGState none (some e) true none (some buf) none) ds).1.documents
      = some (buf ++ buildBatch (e.countRes + buf.length) ds)) ∧
    ((API.add (mkGState none (some e) true none (some buf) none) ds).1.clusterLog = []) ∧
    ((API.index (mkGState none (some e) true none (some buf) none)).2 = .ok ()) ∧
    ((API.index (mkGState none (some e) true none (some buf) none)).1.documents = none) ∧
    ((API.upsert (mkGState none (some e) true none (some buf) none)).2 = .ok ()) ∧
    ((API.upsert (mkGState none (some e) true none (some buf) none)).1.documents = none) ∧
    (API.search (mkGState none none true none none none) q (some lo)
      = (mkGState none none true none none none, none)) ∧
    (API.batchsearch (mkGState none none true none none none) qs lo
      = (mkGState none none true none none none, none)) ∧
    (API.count (mkGState none none true none none none)
      = (mkGState none none true none none none, none)) ∧
    (API.delete (mkGState none none true none none none) ids
      = (mkGState none none true none none none, none)) ∧
    (API.index (mkGState none none true none none none)
      = (mkGState none none true none none none, .ok ())) ∧
    (API.upsert (mkGState none none true none none none)
      = (mkGState none none true none none none, .ok ())) ∧
    (API.add (mkGState none none true none none none) ds
      = (mkGState none none true none none none, ds)) ∧
    ((API.similarity (mkGState (some c) (some e) true (some "p") (some buf) none) q ts).1.clusterLog
      = []) ∧
    ((API.batchsimilarity (mkGState (some c) (some e) true (some "p") (some buf) none) qs ts).1.clusterLog
      = []) ∧
    ((API.transform (mkGState (some c) (some e) true (some "p") (some buf) none) q).1.clusterLog
      = []) ∧
    ((API.batchtransform (mkGState (some c) (some e) true (some "p") (some buf) none) qs).1.clusterLog
      = []) := by
  obtain ⟨cnt, sr, bsr, sir, bsir, tr, btr, dr, sc, sv⟩ := e
  cases sc <;>
    exact ⟨rfl, rfl, rfl, rfl, rfl, rfl, rfl, rfl, rfl, rfl, rfl, rfl, rfl, rfl, rfl,
      rfl, rfl, rfl, rfl, rfl, rfl, rfl, rfl, rfl, rfl, rfl, rfl, rfl, rfl, rfl⟩

/-- The normalized batch has exactly one entry per input document. -/
theorem buildBatch_length (idx : Nat) (ds : List PyDoc) :
    (buildBatch idx ds).length = ds.length := by
  induction ds generalizing idx with
  | nil => rfl
  | cons d rest ih => cases d <;> simp [buildBatch, ih]

/-- autoCount distributes over append. -/
theorem autoCount_append (xs ys : List PyDoc) :
    autoCount (xs ++ ys) = autoCount xs + autoCount ys := by
  induction xs with
  | nil => simp [autoCount]
  | cons d rest ih =>
    cases d with
    | dict id t => simp [autoCount, ih]
    | text s => simp [autoCount, ih]; omega
    | pair id c => simp [autoCount, ih]
    | triple id c o => simp [autoCount, ih]

/-- autoCount of a prefix is at most autoCount of the whole list. -/
theorem autoCount_take_le (n : Nat) (xs : List PyDoc) :
    autoCount (xs.take n) ≤ autoCount xs := by
  induction xs generalizing n with
  | nil => simp [autoCount]
  | cons d rest ih =>
    cases n with
    | zero => exact Nat.zero_le _
    | succ n =>
      cases d <;> (simp only [List.take_succ_cons, autoCount]; have := ih n; omega)

/-- autoCount is monotone in the prefix length. -/
theorem autoCount_take_mono {n m : Nat} (h : n ≤ m) (xs : List PyDoc) :
    autoCount (xs.take n) ≤ autoCount (xs.take m) := by
  have h1 : (xs.take m).take n = xs.take n := by
    rw [List.take_take, Nat.min_eq_left h]
  rw [← h1]
  exact autoCount_take_le n (xs.take m)

/-- Elementwise characterization of the add-batch loop: the k-th
normalized document is the k-th input document normalized at counter
value idx plus the number of auto-assigned ids among the first k
documents. -/
theorem buildBatch_get (ds : List PyDoc) :
    ∀ (idx k : Nat), (buildBatch idx ds)[k]?
      = (ds[k]?).map (fun d => normalizeDocAt (idx + autoCount (List.take k ds)) d) := by
  induction ds with
  | nil => intro idx k; simp [buildBatch]
  | cons d rest ih =>
    intro idx k
    cases k with
    | zero => cases d <;> simp [buildBatch, normalizeDocAt, autoCount]
    | succ k =>
      cases d with
      | text s =>
        simp only [buildBatch, List.getElem?_cons_succ, List.take_succ_cons, autoCount]
        rw [ih (idx + 1) k]
        have harith : idx + 1 + autoCount (List.take k rest)
            = idx + (autoCount (List.take k rest) + 1) := by omega
        rw [harith]
      | dict id t =>
        simp only [buildBatch, List.getElem?_cons_succ, List.take_succ_cons, autoCount]
        exact ih idx k
      | pair id c =>
        simp only [buildBatch, List.getElem?_cons_succ, List.take_succ_cons, autoCount]
        exact ih idx k
      | triple id c o =>
        simp only [buildBatch, List.getElem?_cons_succ, List.take_succ_cons, autoCount]
        exact ih idx k

/-- Past a bare-string document the auto-id count strictly grows. -/
theorem autoCount_take_lt {ds : List PyDoc} {i j : Nat} {a : String}
    (hi : ds[i]? = some (.text a)) (hij : i < j) :
    autoCount (ds.take i) < autoCount (ds.take j) := by
  have hsucc : autoCount (ds.take (i + 1)) = autoCount (ds.take i) + 1 := by
    rw [List.take_succ, autoCount_append, hi]
    simp [autoCount]
  have hmono := autoCount_take_mono (show i + 1 ≤ j by omega) ds
  omega

/-- Claim C4 (amended): on a writable gateway with a local index and no
cluster, add appends the normalized batch to the buffer in call order;
structured records keep their ids, pairs are padded with a null third
element, and bare text receives an auto id from a counter starting at
currentIndexCount + alreadyBufferedCount that increments once per
auto-assigned document, so auto ids are strictly increasing and at
least the counter start (they can however collide with caller-supplied
ids of buffered or persisted documents, see the counterexample). -/
theorem claim_C4_amended (e : EmbData) (old : List NDoc) (ds : List PyDoc)
    (idx k i j : Nat) (a b : String)
    (hij : i < j) (hi : ds[i]? = some (.text a)) (hj : ds[j]? = some (.text b)) :
    ((API.add (mkGState none (some e) true none (some old) none) ds).1.documents
      = some (old ++ buildBatch (e.countRes + old.length) ds)) ∧
    ((API.add (mkGState none (some e) true none (some old) none) ds).2 = ds) ∧
    ((buildBatch idx ds).length = ds.length) ∧
    ((buildBatch idx ds)[k]?
      = (ds[k]?).map (fun d => normalizeDocAt (idx + autoCount (List.take k ds)) d)) ∧
    ((buildBatch idx ds)[i]?
      = some ⟨some (.num (idx + autoCount (List.take i ds))), .text a, none⟩) ∧
    ((buildBatch idx ds)[j]?
      = some ⟨some (.num (idx + autoCount (List.take j ds))), .text b, none⟩) ∧
    (idx + autoCount (List.take i ds) < idx + autoCount (List.take j ds)) := by
  refine ⟨rfl, rfl, buildBatch_length idx ds, buildBatch_get ds idx k, ?_, ?_, ?_⟩
  · rw [buildBatch_get ds idx i, hi]; rfl
  · rw [buildBatch_get ds idx j, hj]; rfl
  · have := autoCount_take_lt hi hij; omega

/-- A small concrete batch exercising all three document shapes. -/
def c4docs : List PyDoc := [.text "u", .dict (.num 7) "d", .text "v"]

/-- Claim C4 witness: a concrete add on a gateway whose index holds 4
documents, with a mixed batch. -/
theorem claim_C4_witness :
    ((API.add (mkGState none (some (dummyEmb 4)) true none (some []) none) c4docs).1.documents
      = some [⟨some (DocId.num 4), Content.text "u", none⟩,
              ⟨some (DocId.num 7), Content.record (DocId.num 7) "d", none⟩,
              ⟨some (DocId.num 5), Content.text "v", none⟩]) ∧
    ((API.add (mkGState none (some (dummyEmb 4)) true none (some []) none) c4docs).2 = c4docs) ∧
    ((buildBatch 4 c4docs).length = 3) ∧
    ((buildBatch 4 c4docs)[1]?
      = some ⟨some (DocId.num 7), Content.record (DocId.num 7) "d", none⟩) ∧
    ((buildBatch 4 c4docs)[0]? = some ⟨some (DocId.num 4), Content.text "u", none⟩) ∧
    ((buildBatch 4 c4docs)[2]? = some ⟨some (DocId.num 5), Content.text "v", none⟩) ∧
    (4 + autoCount (List.take 0 c4docs) < 4 + autoCount (List.take 2 c4docs)) :=
  claim_C4_amended (dummyEmb 4) [] c4docs 4 1 0 2 "u" "v" (by decide) rfl rfl

/-- Claim C4 counterexample: an auto-assigned id can collide with a
caller-supplied id already in the buffer: with an empty index, adding a
structured record with id 1 and then a bare string gives the string the
auto id 0 + 1 = 1, equal to the buffered record's id. -/
theorem claim_C4_counterexample :
    ((API.add (API.add (mkGState none (some (dummyEmb 0)) true none none none)
        [PyDoc.dict (DocId.num 1) "a"]).1 [PyDoc.text "x"]).1.documents.getD []).map NDoc.id
      = [some (DocId.num 1), some (DocId.num 1)] :=
  rfl

/-- Claim C6: resolving a task whose action name is index or upsert
substitutes the gateway's add method as the action, forces unpack to
false and sets finalize to the gateway's index or upsert method
respectively; any other action name resolves by exact registry lookup,
falling back to an anonymously constructed pipeline. -/
theorem claim_C6_resolve (P : List (String × AVal)) (u : Option Bool)
    (f0 : Option AVal) (n : String) (v : AVal)
    (hn1 : n ≠ "index") (hn2 : n ≠ "upsert") :
    (API.resolve P ⟨some (Sum.inl (AVal.str "index")), u, none, f0⟩
      = ⟨some (Sum.inl AVal.addMethod), some false, none, some AVal.indexMethod⟩) ∧
    (API.resolve P ⟨some (Sum.inl (AVal.str "upsert")), u, none, f0⟩
      = ⟨some (Sum.inl AVal.addMethod), some false, none, some AVal.upsertMethod⟩) ∧
    ((API.resolve [(n, v)] ⟨some (Sum.inl (AVal.str n)), u, none, none⟩).action
      = some (Sum.inl v)) ∧
    ((API.resolve [] ⟨some (Sum.inl (AVal.str n)), u, none, none⟩).action
      = some (Sum.inl (AVal.anonymous (AVal.str n)))) := by
  refine ⟨rfl, rfl, ?_, ?_⟩
  · simp [API.resolve, API.resolveLoop, API.function, pipelineFactoryCreate,
      List.lookup, hn1, hn2]
  · simp [API.resolve, API.resolveLoop, API.function, pipelineFactoryCreate,
      List.lookup, hn1, hn2]

/-- Claim C6 witness at the action names index, upsert and summary. -/
theorem claim_C6_witness :
    (API.resolve [] ⟨some (Sum.inl (AVal.str "index")), some true, none, some (AVal.str "f")⟩
      = ⟨some (Sum.inl AVal.addMethod), some false, none, some AVal.indexMethod⟩) ∧
    (API.resolve [] ⟨some (Sum.inl (AVal.str "upsert")), some true, none, some (AVal.str "f")⟩
      = ⟨some (Sum.inl AVal.addMethod), some false, none, some AVal.upsertMethod⟩) ∧
    ((API.resolve [("summary", AVal.pipe "s")]
        ⟨some (Sum.inl (AVal.str "summary")), some true, none, none⟩).action
      = some (Sum.inl (AVal.pipe "s"))) ∧
    ((API.resolve [] ⟨some (Sum.inl (AVal.str "summary")), some true, none, none⟩).action
      = some (Sum.inl (AVal.anonymous (AVal.str "summary")))) :=
  claim_C6_resolve [] (some true) (some (AVal.str "f")) "summary" (AVal.pipe "s")
    (by decide) (by decide)

/-- The initialize/finalize resolution step of API.resolve: resolve the
entry only when it is string-valued. -/
def resIF (P : List (String × AVal)) : Option AVal → Option AVal
  | some (.str n) => some (API.function P (.str n))
  | x => x

/-- On a task with no action entry, API.resolve only applies the
string-guarded initialize/finalize resolution. -/
theorem resolve_no_action (P : List (String × AVal)) (u : Option Bool)
    (ini fin : Option AVal) :
    API.resolve P ⟨none, u, ini, fin⟩ = ⟨none, u, resIF P ini, resIF P fin⟩ := by
  rcases ini with _ | v <;> rcases fin with _ | w
  · rfl
  · cases w <;> rfl
  · cases v <;> rfl
  · cases v <;> cases w <;> rfl

/-- Registry values found by lookup inherit the registry's non-string
property. -/
theorem lookup_not_str {P : List (String × AVal)}
    (hP : ∀ q ∈ P, AVal.isStr q.2 = false) {n : String} {v : AVal}
    (h : P.lookup n = some v) : AVal.isStr v = false := by
  induction P with
  | nil => simp [List.lookup] at h
  | cons q rest ih =>
    obtain ⟨k, w⟩ := q
    by_cases hk : (n == k) = true
    · simp [List.lookup, hk] at h
      exact h ▸ hP (k, w) (List.mem_cons_self _ _)
    · simp only [List.lookup, hk, Bool.false_eq_true] at h
      exact ih (fun q hq => hP q (List.mem_cons_of_mem _ hq)) h

/-- When every registered pipeline is a callable, API.function never
returns a string value. -/
theorem function_not_str {P : List (String × AVal)}
    (hP : ∀ q ∈ P, AVal.isStr q.2 = false) (f : AVal) :
    AVal.isStr (API.function P f) = false := by
  cases f with
  | str n =>
    simp only [API.function]
    cases hl : P.lookup n with
    | some p => exact lookup_not_str hP hl
    | none => rfl
  | addMethod => rfl
  | indexMethod => rfl
  | upsertMethod => rfl
  | pipe m => rfl
  | anonymous a => rfl

/-- The string-guarded resolution step leaves non-string values
alone. -/
theorem resIF_of_not_str (P : List (String × AVal)) {w : AVal}
    (h : AVal.isStr w = false) : resIF P (some w) = some w := by
  cases w with
  | str n => simp [AVal.isStr] at h
  | addMethod => rfl
  | indexMethod => rfl
  | upsertMethod => rfl
  | pipe m => rfl
  | anonymous a => rfl

/-- The string-guarded resolution step is idempotent over a registry of
callables. -/
theorem resIF_idem {P : List (String × AVal)}
    (hP : ∀ q ∈ P, AVal.isStr q.2 = false) (x : Option AVal) :
    resIF P (resIF P x) = resIF P x := by
  rcases x with _ | v
  · rfl
  · cases v with
    | str n => exact resIF_of_not_str P (function_not_str hP (.str n))
    | addMethod => rfl
    | indexMethod => rfl
    | upsertMethod => rfl
    | pipe m => rfl
    | anonymous a => rfl

/-- Claim C8 counterexample: resolution is not idempotent on the action
entry: resolving a task with action name translation and an empty
registry yields an anonymous pipeline callable, and resolving again
passes that callable back through the factory, changing the task. -/
theorem claim_C8_counterexample :
    API.resolve [] (API.resolve []
        ⟨some (Sum.inl (AVal.str "translation")), none, none, none⟩)
      ≠ API.resolve [] ⟨some (Sum.inl (AVal.str "translation")), none, none, none⟩ := by
  decide

/-- Claim C8 (amended): resolution is idempotent on the initialize and
finalize entries, which are only resolved when string-valued (given a
registry of callables); it is not idempotent on the action entry,
which is re-resolved through the pipeline factory even when already a
callable.  For a task with no action entry, resolve of resolve equals
resolve. -/
theorem claim_C8_amended (P : List (String × AVal)) (task : WTask)
    (hP : ∀ q ∈ P, AVal.isStr q.2 = false) (ha : task.action = none) :
    API.resolve P (API.resolve P task) = API.resolve P task := by
  obtain ⟨act, u, ini, fin⟩ := task
  simp only at ha
  subst ha
  rw [resolve_no_action, resolve_no_action, resIF_idem hP, resIF_idem hP]

/-- Claim C8 witness: a concrete action-free task with string-valued
initialize and finalize entries over the empty registry. -/
theorem claim_C8_witness :
    API.resolve [] (API.resolve [] ⟨none, some true, some (AVal.str "a"), some (AVal.str "b")⟩)
      = API.resolve [] ⟨none, some true, some (AVal.str "a"), some (AVal.str "b")⟩ :=
  claim_C8_amended [] ⟨none, some true, some (AVal.str "a"), some (AVal.str "b")⟩
    (by simp) rfl

/-- Contribution of a thread to the buffer length: its whole batch once
it has appended, nothing before. -/
def contribOf (batch : List PyDoc) (p : ThreadPC) : Nat :=
  match p with
  | .appended => batch.length
  | .done => batch.length
  | _ => 0

/-- Positions at which a thread holds the mutation lock. -/
def holdsLock (p : ThreadPC) : Prop :=
  p = .owned ∨ p = .created ∨ p = .appended

/-- Invariant of the two-thread add system: the buffer length accounts
exactly for the appended batches, and a thread inside the locked
region owns the lock. -/
def CInv (b0 b1 : List PyDoc) (s : CncState) : Prop :=
  (s.documents.getD []).length = contribOf b0 s.pc0 + contribOf b1 s.pc1 ∧
  (holdsLock s.pc0 → s.lock = some 0) ∧
  (holdsLock s.pc1 → s.lock = some 1)

/-- Every lock-respecting step preserves the invariant. -/
theorem cinv_step {b0 b1 : List PyDoc} {s t : CncState}
    (h : AddStep b0 b1 s t) (hs : CInv b0 b1 s) : CInv b0 b1 t := by
  obtain ⟨hlen, hl0, hl1⟩ := hs
  cases h with
  | acquire0 hpc hl =>
    refine ⟨by simpa [contribOf, hpc] using hlen, fun _ => rfl, ?_⟩
    intro h1; have hx := hl1 h1; rw [hl] at hx; simp at hx
  | create0 hpc hl =>
    refine ⟨by simpa [doCreate, contribOf, hpc] using hlen, fun _ => hl, ?_⟩
    intro h1; have hx := hl1 h1; rw [hl] at hx; simp at hx
  | append0 hpc hl =>
    refine ⟨?_, fun _ => hl, ?_⟩
    · have hz : (s.documents.getD []).length = contribOf b1 s.pc1 := by
        simpa [contribOf, hpc] using hlen
      simp [doAppend, contribOf, buildBatch_length]
      simp only [contribOf] at hz
      omega
    · intro h1; have hx := hl1 h1; rw [hl] at hx; simp at hx
  | release0 hpc hl =>
    refine ⟨by simpa [contribOf, hpc] using hlen, ?_, ?_⟩
    · intro h0; simp [holdsLock] at h0
    · intro h1; have hx := hl1 h1; rw [hl] at hx; simp at hx
  | acquire1 hpc hl =>
    refine ⟨by simpa [contribOf, hpc] using hlen, ?_, fun _ => rfl⟩
    intro h0; have hx := hl0 h0; rw [hl] at hx; simp at hx
  | create1 hpc hl =>
    refine ⟨by simpa [doCreate, contribOf, hpc] using hlen, ?_, fun _ => hl⟩
    intro h0; have hx := hl0 h0; rw [hl] at hx; simp at hx
  | append1 hpc hl =>
    refine ⟨?_, ?_, fun _ => hl⟩
    · have hz : (s.documents.getD []).length = contribOf b0 s.pc0 := by
        simpa [contribOf, hpc] using hlen
      simp [doAppend, contribOf, buildBatch_length]
      simp only [contribOf] at hz
      omega
    · intro h0; have hx := hl0 h0; rw [hl] at hx; simp at hx
  | release1 hpc hl =>
    refine ⟨by simpa [contribOf, hpc] using hlen, ?_, ?_⟩
    · intro h0; have hx := hl0 h0; rw [hl] at hx; simp at hx
    · intro h1; simp [holdsLock] at h1

/-- Claim C9: add holds the mutation lock for its whole critical
section (buffer check/create, counter read, append), so in every
interleaved execution of two concurrent add calls that runs both to
completion the buffer holds exactly the documents of both batches: no
lost update. -/
theorem claim_C9_no_lost_update (b0 b1 : List PyDoc) (cnt : Nat) (s : CncState)
    (h : Relation.ReflTransGen (AddStep b0 b1) (initCnc cnt) s)
    (h0 : s.pc0 = .done) (h1 : s.pc1 = .done) :
    (s.documents.getD []).length = b0.length + b1.length := by
  have hinv : CInv b0 b1 s := by
    clear h0 h1
    induction h with
    | refl =>
      exact ⟨rfl, by simp [initCnc, holdsLock], by simp [initCnc, holdsLock]⟩
    | tail hab hbc ih => exact cinv_step hbc ih
  have hx := hinv.1
  rw [h0, h1] at hx
  simpa [contribOf] using hx

/-- Claim C9 witness: a complete serialized execution of two adds of
one bare-string document each on an index holding 3 documents; the
final buffer has length 1 + 1. -/
theorem claim_C9_witness :
    ((CncState.mk none (some [⟨some (DocId.num 3), Content.text "u", none⟩,
        ⟨some (DocId.num 4), Content.text "w", none⟩]) 3 .done .done).documents.getD []).length
      = ([PyDoc.text "u"] : List PyDoc).length + ([PyDoc.text "w"] : List PyDoc).length := by
  refine claim_C9_no_lost_update [PyDoc.text "u"] [PyDoc.text "w"] 3 _ ?_ rfl rfl
  exact Relation.ReflTransGen.head (AddStep.acquire0 _ rfl rfl)
    (Relation.ReflTransGen.head (AddStep.create0 _ rfl rfl)
    (Relation.ReflTransGen.head (AddStep.append0 _ rfl rfl)
    (Relation.ReflTransGen.head (AddStep.release0 _ rfl rfl)
    (Relation.ReflTransGen.head (AddStep.acquire1 _ rfl rfl)
    (Relation.ReflTransGen.head (AddStep.create1 _ rfl rfl)
    (Relation.ReflTransGen.head (AddStep.append1 _ rfl rfl)
    (Relation.ReflTransGen.head (AddStep.release1 _ rfl rfl)
    Relation.ReflTransGen.refl)))))))
